import Mathlib

/-
Verification of the archimedesHTTP client (src/client.go, src/request.go,
src/response.go, src/server.go) against its natural-language specification.

The Go code is shallowly embedded: the dispatch pipeline of Client.Do and the
two resolution functions resolveServiceInArchimedes and
resolveInstanceInArchimedes (src/client.go lines 253-412) are translated into
pure Lean functions.  Effects are made explicit:

  - the embedded net/http client (field originalHttpClient) becomes an oracle
    function from requests to results, since both the registry lookups and the
    final send go through it (src/client.go lines 278, 303, 371);
  - a Go panic becomes the ROut.fatal / DoRes.fatal constructor, a returned Go
    error becomes ROut.error, a normal return becomes ROut.ok;
  - the calls the code issues through the oracle are collected into an event
    trace, so call counts (number of registry lookups, number of sends) are
    observable;
  - rand.Intn is modelled by threading an arbitrary natural number randN and
    reducing it modulo the instance count, with the Go panic of Intn on an
    empty slice preserved.

External collaborators (the archimedes registry api, docker nat ports, the
net and net/url packages) are modelled only as far as src/client.go exercises
them; each such definition carries a comment saying what it stands for.
-/

namespace Arch

/-- Result of a Go call that returns a value together with an error slot:
either a value (err == nil) or an error. -/
inductive Res (α : Type) where
  | ok (a : α)
  | err (msg : String)
  deriving Repr, DecidableEq

/-- Outcome of the resolution functions of src/client.go: a returned value, a
returned Go error, or a Go panic (constructor fatal). -/
inductive ROut (α : Type) where
  | ok (a : α)
  | error (msg : String)
  | fatal (msg : String)
  deriving Repr, DecidableEq

/-- The fields of net/url.URL that src/client.go lines 261-271 copies when it
rewrites a destination.  Field opq stands for the Go field named after the
adjective for non-transparent. -/
structure URL where
  scheme : String
  opq : String
  user : String
  host : String
  path : String
  rawPath : String
  forceQuery : Bool
  rawQuery : String
  fragment : String
  deriving Repr, DecidableEq

/-- docker go-connections nat.Port: a port number paired with a protocol,
rendered in Go as num/proto.  Collaborator type, used at src/client.go lines
326 and 390. -/
structure NatPort where
  num : String
  proto : String
  deriving Repr, DecidableEq

/-- The port part of a nat.Port (the Go method Port), used at src/client.go
lines 341 and 402. -/
def NatPort.Port (p : NatPort) : String := p.num

/-- docker go-connections nat.PortBinding, read at src/client.go lines 343
and 404 through field HostPort. -/
structure PortBinding where
  HostIp : String
  HostPort : String
  deriving Repr, DecidableEq

/-- archimedes api Instance as consumed by src/client.go lines 337-346:
fields Ip, Local and PortTranslation. -/
structure Instance where
  Ip : String
  Local : Bool
  PortTranslation : List (NatPort × List PortBinding)
  deriving Repr, DecidableEq

/-- archimedes api CompletedServiceDTO as consumed by src/client.go lines
320-337: a port set, the instance id list and the id-to-instance map, both
modelled as association lists. -/
structure CompletedServiceDTO where
  Ports : List NatPort
  InstancesIds : List String
  InstancesMap : List (String × Instance)
  deriving Repr, DecidableEq

/-- archimedes api CompletedInstanceDTO as consumed by src/client.go lines
384-407.  Field Inst stands for the Go field named Instance (the field and
its type share that name in Go). -/
structure CompletedInstanceDTO where
  Ports : List NatPort
  Inst : Instance
  deriving Repr, DecidableEq

/-- Body of an HTTP message.  The registry answers are consumed through
json.Decoder at src/client.go lines 320-324 and 384-388; a body either
decodes to the expected DTO or makes the decoder fail, which the code turns
into a panic. -/
inductive BodyData where
  | empty
  | raw (s : String)
  | serviceJson (d : Res CompletedServiceDTO)
  | instanceJson (d : Res CompletedInstanceDTO)
  deriving Repr, DecidableEq

/-- The part of net/http.Response that src/client.go reads: the status code
(lines 308, 315, 376, 379) and the body handed to the json decoder. -/
structure Response where
  StatusCode : Nat
  Body : BodyData
  deriving Repr, DecidableEq

/-- The part of net/http.Request that src/client.go builds and reads: method,
URL, Host, Header and Body.  src/request.go line 30 makes the custom Request
a type alias of the net/http one. -/
structure Request where
  method : String
  url : URL
  host : String
  header : List (String × String)
  body : BodyData
  deriving Repr, DecidableEq

/-- net/http.StatusNotFound, compared against at src/client.go lines 308 and
376. -/
def StatusNotFound : Nat := 404

/-- net/http.StatusOK, compared against at src/client.go lines 315 and 379. -/
def StatusOK : Nat := 200

/-- Modelled from the spec: the registry endpoint constant
archimedes.DefaultHostPort (src/client.go lines 294 and 362); the archimedes
api package is an external collaborator, not under src/, and the concrete
value is immaterial to every claim. -/
def DefaultHostPort : String := "localhost:50000"

/-- Modelled from the spec: archimedes.GetServicePath (src/client.go line
295), the registry lookup path for a service identifier.  Only its shape as
a path ending in the identifier matters. -/
def GetServicePath (serviceId : String) : String :=
  "/archimedes/services/" ++ serviceId

/-- Modelled from the spec: archimedes.GetInstancePath (src/client.go line
363), the registry lookup path for an instance identifier. -/
def GetInstancePath (instanceId : String) : String :=
  "/archimedes/instances/" ++ instanceId

/-- genericutils.TCP, the protocol constant passed to nat.NewPort at
src/client.go lines 326 and 390. -/
def TCP : String := "tcp"

/-- Splits a list of characters on a separator, keeping empty groups, as a
kernel-friendly ground for SplitHostPort. -/
def splitOnCharList (sep : Char) : List Char → List (List Char)
  | [] => [[]]
  | c :: cs =>
    let r := splitOnCharList sep cs
    if c == sep then [] :: r
    else
      match r with
      | [] => [[c]]
      | g :: gs => (c :: g) :: gs

/-- net.SplitHostPort as exercised at src/client.go lines 286 and 355: one
colon splits host from port; no colon is a missing-port error; more than one
colon (unbracketed) is a too-many-colons error.  Bracketed IPv6 forms are not
exercised by the code paths under verification and are not modelled. -/
def SplitHostPort (hostPort : String) : Res (String × String) :=
  match splitOnCharList ':' hostPort.toList with
  | [h, p] => Res.ok (String.mk h, String.mk p)
  | [_] => Res.err ("address " ++ hostPort ++ ": missing port in address")
  | _ => Res.err ("address " ++ hostPort ++ ": too many colons in address")

/-- Reads a decimal numeral; none when a non-digit occurs.  Ground for
ParsePort. -/
def parseDigits : List Char → Nat → Option Nat
  | [], acc => some acc
  | c :: rest, acc =>
    if c.isDigit then parseDigits rest (acc * 10 + (c.toNat - 48)) else none

/-- docker go-connections nat.ParsePort: the empty string is port 0; a
decimal numeral up to 65535 is accepted; anything else errors. -/
def ParsePort (s : String) : Res Nat :=
  match s.toList with
  | [] => Res.ok 0
  | cs =>
    match parseDigits cs 0 with
    | some n => if n ≤ 65535 then Res.ok n else Res.err ("invalid port: " ++ s)
    | none => Res.err ("invalid port: " ++ s)

/-- docker go-connections nat.NewPort (src/client.go lines 326 and 390):
validates the port and pairs it with the protocol. -/
def natNewPort (proto port : String) : Res NatPort :=
  match ParsePort port with
  | Res.ok _ => Res.ok { num := port, proto := proto }
  | Res.err e => Res.err e

/-- json.Decoder.Decode into a CompletedServiceDTO (src/client.go lines
320-324): the body either carries a decodable service DTO or the decode
fails. -/
def decodeService : BodyData → Res CompletedServiceDTO
  | BodyData.serviceJson d => d
  | _ => Res.err "json: cannot unmarshal body into CompletedServiceDTO"

/-- json.Decoder.Decode into a CompletedInstanceDTO (src/client.go lines
384-388). -/
def decodeInstance : BodyData → Res CompletedInstanceDTO
  | BodyData.instanceJson d => d
  | _ => Res.err "json: cannot unmarshal body into CompletedInstanceDTO"

/-- The url.URL literal built for registry lookups at src/client.go lines
292-296 and 360-364: scheme http, host DefaultHostPort, the given path, zero
values elsewhere. -/
def archURL (p : String) : URL :=
  { scheme := "http", opq := "", user := "", host := DefaultHostPort,
    path := p, rawPath := "", forceQuery := false, rawQuery := "", fragment := "" }

/-- net/http.NewRequest as used by src/client.go (lines 273, 298, 366) and by
the verb methods of src/client.go and src/request.go line 39: the Go function
renders the URL to a string and parses it back, sets Host from the URL host,
an empty header map, and the given body.  The embedding passes the URL value
directly; the call sites only ever hand it a freshly rendered URL, for which
the render-parse round trip is the identity. -/
def NewRequest (method : String) (u : URL) (body : BodyData) : Request :=
  { method := method, url := u, host := u.host, header := [], body := body }

/-- The registry service-lookup request built at src/client.go lines 292-301:
GET on the archimedes endpoint at GetServicePath of the host, nil body. -/
def svcLookupRequest (host : String) : Request :=
  NewRequest "GET" (archURL (GetServicePath host)) BodyData.empty

/-- The registry instance-lookup request built at src/client.go lines
360-369. -/
def instLookupRequest (host : String) : Request :=
  NewRequest "GET" (archURL (GetInstancePath host)) BodyData.empty

/-- One call the client issues through its embedded net/http client: either a
registry lookup (src/client.go lines 303 and 371) or the final send of the
dispatched request (line 278). -/
inductive Event where
  | registryCall (req : Request)
  | send (req : Request)
  deriving Repr, DecidableEq

/-- Whether an event is the send of a dispatched request. -/
def Event.isSend : Event → Bool
  | Event.send _ => true
  | Event.registryCall _ => false

/-- Association-list read of a nat.PortMap (src/client.go lines 343 and 404):
a missing key yields the empty list, matching the nil slice a Go map read
returns for an absent key. -/
def assocFind (key : NatPort) : List (NatPort × List PortBinding) → List PortBinding
  | [] => []
  | (k, v) :: rest => if k == key then v else assocFind key rest

/-- Association-list read of InstancesMap (src/client.go line 337): a missing
key yields the zero Instance.  The archimedes api is not under src/; if its
map held pointers a missing key would be a nil dereference, a path no claim
exercises. -/
def findInstance (key : String) : List (String × Instance) → Instance
  | [] => { Ip := "", Local := false, PortTranslation := [] }
  | (k, v) :: rest => if k == key then v else findInstance key rest

/-- Membership in a nat.PortSet (src/client.go lines 331 and 395). -/
def portsContain (ports : List NatPort) (p : NatPort) : Bool :=
  ports.any (fun q => q == p)

/-- The port-and-ip selection at src/client.go lines 339-346 and 400-407: a
local instance keeps the logical port; otherwise the first binding of the
port translation is taken, and indexing [0] into an empty translation is the
Go index-out-of-range panic. -/
def resolveInstancePortIp (inst : Instance) (portWithProto : NatPort) : ROut String :=
  if inst.Local then ROut.ok (inst.Ip ++ ":" ++ portWithProto.Port)
  else
    match assocFind portWithProto inst.PortTranslation with
    | [] => ROut.fatal "index out of range [0] with length 0"
    | b :: _ => ROut.ok (inst.Ip ++ ":" ++ b.HostPort)

/-- src/client.go lines 354-412, resolveInstanceInArchimedes: split the
address, issue the instance lookup, pass the original address through on 404,
error on any other non-200 status, otherwise decode, validate the port and
build ip:port.  Returns the outcome together with the trace of registry calls
issued. -/
def resolveInstanceInArchimedes (cl : Request → Res Response) (hostPort : String) :
    ROut String × List Event :=
  match SplitHostPort hostPort with
  | Res.err e => (ROut.fatal e, [])
  | Res.ok (host, port) =>
    match cl (instLookupRequest host) with
    | Res.err e => (ROut.fatal e, [Event.registryCall (instLookupRequest host)])
    | Res.ok resp =>
      if resp.StatusCode == StatusNotFound then
        (ROut.ok hostPort, [Event.registryCall (instLookupRequest host)])
      else if resp.StatusCode != StatusOK then
        (ROut.error ("got status " ++ toString resp.StatusCode ++ " while resolving "
            ++ hostPort ++ " in archimedes"),
         [Event.registryCall (instLookupRequest host)])
      else
        match decodeInstance resp.Body with
        | Res.err e => (ROut.fatal e, [Event.registryCall (instLookupRequest host)])
        | Res.ok ci =>
          match natNewPort TCP port with
          | Res.err e => (ROut.fatal e, [Event.registryCall (instLookupRequest host)])
          | Res.ok portWithProto =>
            if portsContain ci.Ports portWithProto then
              (resolveInstancePortIp ci.Inst portWithProto,
               [Event.registryCall (instLookupRequest host)])
            else
              (ROut.error ("port is not valid for service " ++ host),
               [Event.registryCall (instLookupRequest host)])

/-- src/client.go lines 284-351, resolveServiceInArchimedes: split the
address, issue the service lookup keyed by the full host, fall back to the
instance lookup on 404, error on any other non-200 status, otherwise decode
the service, validate the port, pick a pseudo-random instance (rand.Intn,
modelled by randN modulo the length, with the Intn panic on an empty list)
and build ip:port.  Returns the outcome together with the trace of registry
calls issued. -/
def resolveServiceInArchimedes (cl : Request → Res Response) (randN : Nat) (hostPort : String) :
    ROut String × List Event :=
  match SplitHostPort hostPort with
  | Res.err e => (ROut.fatal e, [])
  | Res.ok (host, port) =>
    match cl (svcLookupRequest host) with
    | Res.err e => (ROut.fatal e, [Event.registryCall (svcLookupRequest host)])
    | Res.ok resp =>
      if resp.StatusCode == StatusNotFound then
        let rt := resolveInstanceInArchimedes cl hostPort
        (rt.1, Event.registryCall (svcLookupRequest host) :: rt.2)
      else if resp.StatusCode != StatusOK then
        (ROut.error ("got status " ++ toString resp.StatusCode ++ " while resolving "
            ++ hostPort ++ " in archimedes"),
         [Event.registryCall (svcLookupRequest host)])
      else
        match decodeService resp.Body with
        | Res.err e => (ROut.fatal e, [Event.registryCall (svcLookupRequest host)])
        | Res.ok service =>
          match natNewPort TCP port with
          | Res.err e => (ROut.fatal e, [Event.registryCall (svcLookupRequest host)])
          | Res.ok portWithProto =>
            if portsContain service.Ports portWithProto then
              if service.InstancesIds.length == 0 then
                (ROut.fatal "invalid argument to Intn",
                 [Event.registryCall (svcLookupRequest host)])
              else
                let randInstanceId :=
                  service.InstancesIds.getD (randN % service.InstancesIds.length) ""
                let inst := findInstance randInstanceId service.InstancesMap
                (resolveInstancePortIp inst portWithProto,
                 [Event.registryCall (svcLookupRequest host)])
            else
              (ROut.error ("port is not valid for service " ++ host),
               [Event.registryCall (svcLookupRequest host)])

/-- The URL rewrite of src/client.go lines 260-271: every field of the old
URL is copied and only Host is replaced by the resolved address. -/
def rewriteURL (u : URL) (newHost : String) : URL :=
  { scheme := u.scheme, opq := u.opq, user := u.user, host := newHost,
    path := u.path, rawPath := u.rawPath, forceQuery := u.forceQuery,
    rawQuery := u.rawQuery, fragment := u.fragment }

/-- Result of Client.Do: a Go panic, or the returned (response, error) pair
together with the request that was actually sent (src/client.go line 278
sends it, lines 280 returns the converted response and the error
unchanged). -/
inductive DoRes where
  | fatal (msg : String)
  | ret (sent : Request) (resp : Option Response) (err : Option String)
  deriving Repr, DecidableEq

/-- The Client of src/client.go lines 61-112: the four exported fields
Transport, CheckRedirect, Jar and Timeout, and the zero-value embedded
net/http client through which every call is actually issued.  The embedded
client is modelled by its Do method: an oracle from requests to results. -/
structure Client where
  Transport : Option (Request → Res Response)
  CheckRedirect : Option (Request → List Request → Option String)
  Jar : Option (List (String × String))
  Timeout : Int
  originalHttpClient : Request → Res Response

/-- src/client.go lines 253-281, Client.Do: resolve the Host through
archimedes (panicking on any resolution error, line 257), rebuild the URL
with only the host replaced, reconstruct the request from method, rendered
URL and body via NewRequest (panicking on error, line 275), send it through
the embedded net/http client and return the (response, error) pair
unchanged.  FromOriginalToCustomResponse and ToOriginalRequest are identity
conversions: src/request.go line 30 and src/response.go line 16 declare
Request and Response as type aliases of the net/http ones. -/
def Client.Do (c : Client) (randN : Nat) (req : Request) : DoRes × List Event :=
  let rr := resolveServiceInArchimedes c.originalHttpClient randN req.host
  match rr.1 with
  | ROut.fatal e => (DoRes.fatal e, rr.2)
  | ROut.error e => (DoRes.fatal e, rr.2)
  | ROut.ok resolvedHostPort =>
    let req2 := NewRequest req.method (rewriteURL req.url resolvedHostPort) req.body
    match c.originalHttpClient req2 with
    | Res.err e => (DoRes.ret req2 none (some e), rr.2 ++ [Event.send req2])
    | Res.ok resp => (DoRes.ret req2 (some resp) none, rr.2 ++ [Event.send req2])

/-- net/http.Header.Set as used at src/client.go line 501: replaces any
existing value for the key with the single given value. -/
def headerSet (h : List (String × String)) (k v : String) : List (String × String) :=
  (k, v) :: h.filter (fun p => !(p.1 == k))

/-- src/client.go lines 207-213, Client.Get: build a GET request and hand it
to Do.  The NewRequest error branch cannot fire in the embedding, whose
NewRequest is total. -/
def Client.Get (c : Client) (randN : Nat) (u : URL) : DoRes × List Event :=
  Client.Do c randN (NewRequest "GET" u BodyData.empty)

/-- src/client.go lines 496-503, Client.Post: build a POST request, set the
Content-Type header on it and hand it to Do. -/
def Client.Post (c : Client) (randN : Nat) (u : URL) (contentType : String) (body : BodyData) :
    DoRes × List Event :=
  let req := NewRequest "POST" u body
  let req2 := { req with header := headerSet req.header "Content-Type" contentType }
  Client.Do c randN req2

/-- net/url.Values.Encode as used at src/client.go line 517, modelled without
percent-escaping: the data never needs escaping in any statement here. -/
def urlValuesEncode (data : List (String × String)) : String :=
  String.intercalate "&" (data.map (fun p => p.1 ++ "=" ++ p.2))

/-- src/client.go lines 516-518, Client.PostForm: Post with the form content
type and the encoded data as body. -/
def Client.PostForm (c : Client) (randN : Nat) (u : URL) (data : List (String × String)) :
    DoRes × List Event :=
  Client.Post c randN u "application/x-www-form-urlencoded"
    (BodyData.raw (urlValuesEncode data))

/-- src/client.go lines 529-535, Client.Head: build a HEAD request and hand
it to Do. -/
def Client.Head (c : Client) (randN : Nat) (u : URL) : DoRes × List Event :=
  Client.Do c randN (NewRequest "HEAD" u BodyData.empty)


/-! ### Helper lemmas about the embedding -/

theorem rewriteURL_self (u : URL) : rewriteURL u u.host = u := by
  cases u
  rfl

theorem resolveInstance_trace_no_send (cl : Request → Res Response) (hostPort : String) :
    ∀ ev ∈ (resolveInstanceInArchimedes cl hostPort).2, ev.isSend = false := by
  unfold resolveInstanceInArchimedes
  repeat' split
  all_goals intro ev hev
  all_goals simp at hev
  all_goals (subst hev; rfl)

theorem resolveService_trace_no_send (cl : Request → Res Response) (randN : Nat)
    (hostPort : String) :
    ∀ ev ∈ (resolveServiceInArchimedes cl randN hostPort).2, ev.isSend = false := by
  unfold resolveServiceInArchimedes
  repeat' split
  all_goals intro ev hev
  all_goals simp at hev
  all_goals try (subst hev; rfl)
  all_goals rcases hev with hev | hev
  all_goals try (subst hev; rfl)
  all_goals exact resolveInstance_trace_no_send _ _ ev hev

theorem filter_send_of_no_send (tr : List Event) (h : ∀ ev ∈ tr, ev.isSend = false) :
    tr.filter Event.isSend = [] := by
  simpa [List.filter_eq_nil_iff] using h


theorem resolve_notfound (cl : Request → Res Response) (randN : Nat)
    (hostPort host port : String) (svcResp instResp : Response)
    (hsplit : SplitHostPort hostPort = Res.ok (host, port))
    (hsvc : cl (svcLookupRequest host) = Res.ok svcResp)
    (h404s : svcResp.StatusCode = 404)
    (hinst : cl (instLookupRequest host) = Res.ok instResp)
    (h404i : instResp.StatusCode = 404) :
    resolveServiceInArchimedes cl randN hostPort
      = (ROut.ok hostPort,
         [Event.registryCall (svcLookupRequest host),
          Event.registryCall (instLookupRequest host)]) := by
  unfold resolveServiceInArchimedes resolveInstanceInArchimedes
  rw [hsplit]
  simp [hsvc, hinst, h404s, h404i, StatusNotFound]

theorem do_of_resolve (c : Client) (randN : Nat) (req : Request) (addr : String)
    (tr : List Event)
    (h : resolveServiceInArchimedes c.originalHttpClient randN req.host = (ROut.ok addr, tr)) :
    Client.Do c randN req =
      (match c.originalHttpClient (NewRequest req.method (rewriteURL req.url addr) req.body) with
       | Res.err e =>
          (DoRes.ret (NewRequest req.method (rewriteURL req.url addr) req.body) none (some e),
           tr ++ [Event.send (NewRequest req.method (rewriteURL req.url addr) req.body)])
       | Res.ok resp =>
          (DoRes.ret (NewRequest req.method (rewriteURL req.url addr) req.body) (some resp) none,
           tr ++ [Event.send (NewRequest req.method (rewriteURL req.url addr) req.body)])) := by
  unfold Client.Do
  rw [h]

theorem do_ret_inv (c : Client) (randN : Nat) (req : Request)
    (s : Request) (r : Option Response) (e : Option String)
    (h : (Client.Do c randN req).1 = DoRes.ret s r e) :
    (∃ addr, (resolveServiceInArchimedes c.originalHttpClient randN req.host).1 = ROut.ok addr ∧
      s = NewRequest req.method (rewriteURL req.url addr) req.body) ∧
    (Client.Do c randN req).2
      = (resolveServiceInArchimedes c.originalHttpClient randN req.host).2 ++ [Event.send s] ∧
    r = (match c.originalHttpClient s with | Res.ok resp => some resp | Res.err _ => none) ∧
    e = (match c.originalHttpClient s with | Res.ok _ => none | Res.err m => some m) := by
  rcases hp : resolveServiceInArchimedes c.originalHttpClient randN req.host with ⟨res, tr2⟩
  unfold Client.Do at h ⊢
  rw [hp] at h ⊢
  cases res with
  | fatal m => simp at h
  | error m => simp at h
  | ok addr =>
    dsimp only at h ⊢
    rcases hc : c.originalHttpClient (NewRequest req.method (rewriteURL req.url addr) req.body)
      with resp | msg
    · rw [hc] at h
      dsimp only at h ⊢
      injection h with h1 h2 h3
      subst h1
      subst h2
      subst h3
      exact ⟨⟨addr, rfl, rfl⟩, rfl, by rw [hc], by rw [hc]⟩
    · rw [hc] at h
      dsimp only at h ⊢
      injection h with h1 h2 h3
      subst h1
      subst h2
      subst h3
      exact ⟨⟨addr, rfl, rfl⟩, rfl, by rw [hc], by rw [hc]⟩



/-! ### Concrete oracles and inputs used by witnesses and counterexamples -/

/-- An embedded-client oracle that answers 404 with an empty body to every
call: the registry knows neither the service nor the instance, and the final
send also meets a 404 server. -/
def cl404 : Request → Res Response := fun _ =>
  Res.ok { StatusCode := 404, Body := BodyData.raw "" }

/-- An embedded-client oracle that answers 500 to every call. -/
def cl500 : Request → Res Response := fun _ =>
  Res.ok { StatusCode := 500, Body := BodyData.raw "" }

/-- An embedded-client oracle that answers 408 (request timeout) to every
call: the registry keeps reporting a timeout status. -/
def cl408 : Request → Res Response := fun _ =>
  Res.ok { StatusCode := 408, Body := BodyData.raw "" }

/-- An embedded-client oracle whose every call fails at the network level
with a timeout, the way a dead registry makes originalHttpClient.Do return an
error. -/
def clNetTimeout : Request → Res Response := fun _ => Res.err "i/o timeout"

/-- A service instance living at 10.0.0.5, local, so the logical port is
kept. -/
def localInstance : Instance :=
  { Ip := "10.0.0.5", Local := true, PortTranslation := [] }

/-- A registry answer for a service with one instance on port 9000. -/
def svcFound : CompletedServiceDTO :=
  { Ports := [{ num := "9000", proto := "tcp" }], InstancesIds := ["i0"],
    InstancesMap := [("i0", localInstance)] }

/-- An oracle under which the registry resolves every service to svcFound and
every other request (the final send) succeeds with a 200. -/
def clResolves : Request → Res Response := fun req =>
  if req.url.host == DefaultHostPort then
    Res.ok { StatusCode := 200, Body := BodyData.serviceJson (Res.ok svcFound) }
  else
    Res.ok { StatusCode := 200, Body := BodyData.raw "hi" }

/-- An oracle under which the registry resolves every service to svcFound but
the final send fails with a network timeout. -/
def clSendTimeout : Request → Res Response := fun req =>
  if req.url.host == DefaultHostPort then
    Res.ok { StatusCode := 200, Body := BodyData.serviceJson (Res.ok svcFound) }
  else
    Res.err "dial tcp 10.0.0.5:9000: i/o timeout"

/-- A client whose embedded net/http client is cl404 and whose exported
fields are zero values. -/
def client404 : Client :=
  { Transport := none, CheckRedirect := none, Jar := none, Timeout := 0,
    originalHttpClient := cl404 }

/-- A client over cl500. -/
def client500 : Client :=
  { Transport := none, CheckRedirect := none, Jar := none, Timeout := 0,
    originalHttpClient := cl500 }

/-- A client over clResolves. -/
def clientResolves : Client :=
  { Transport := none, CheckRedirect := none, Jar := none, Timeout := 0,
    originalHttpClient := clResolves }

/-- A client over clSendTimeout. -/
def clientSendTimeout : Client :=
  { Transport := none, CheckRedirect := none, Jar := none, Timeout := 0,
    originalHttpClient := clSendTimeout }

/-- A client over cl404 with every exported field set to a value that differs
from the zero value of client404. -/
def client404Loaded : Client :=
  { Transport := some (fun _ => Res.err "transport never used"),
    CheckRedirect := some (fun _ _ => some "stop"),
    Jar := some [("session", "abc")], Timeout := 99,
    originalHttpClient := cl404 }

/-- A concrete destination URL addressing the logical service svc-1:9000. -/
def urlW : URL :=
  { scheme := "http", opq := "", user := "", host := "svc-1:9000",
    path := "/orders", rawPath := "", forceQuery := false, rawQuery := "a=b",
    fragment := "top" }

/-- A concrete GET request for urlW. -/
def reqW : Request := NewRequest "GET" urlW BodyData.empty

/-- The request Do actually sends when reqW resolves to 10.0.0.5:9000. -/
def sentW : Request :=
  NewRequest "GET" (rewriteURL urlW "10.0.0.5:9000") BodyData.empty

/-! ### C8 -/

/-- C8: every caller-facing verb method, Get, Post, PostForm and Head,
funnels through Do: each builds its request and returns exactly the result of
Do on that request, PostForm going through Post (src/client.go lines 207-213,
496-503, 516-518, 529-535). -/
theorem get_post_postform_head_funnel_through_do (c : Client) (randN : Nat) (u : URL)
    (ct : String) (b : BodyData) (data : List (String × String)) :
    Client.Get c randN u = Client.Do c randN (NewRequest "GET" u BodyData.empty)
    ∧ Client.Head c randN u = Client.Do c randN (NewRequest "HEAD" u BodyData.empty)
    ∧ Client.Post c randN u ct b
        = Client.Do c randN
            { NewRequest "POST" u b with header := [("Content-Type", ct)] }
    ∧ Client.PostForm c randN u data
        = Client.Post c randN u "application/x-www-form-urlencoded"
            (BodyData.raw (urlValuesEncode data)) :=
  ⟨rfl, rfl, rfl, rfl⟩

/-! ### C9 -/

/-- C9: the result and the call trace of Do are independent of the exported
Transport, CheckRedirect, Jar and Timeout fields: two clients sharing the
embedded net/http client dispatch identically, because Do only ever reads
c.originalHttpClient (src/client.go lines 253-281) and never the four
exported fields of lines 61-112. -/
theorem do_independent_of_exported_fields (c1 c2 : Client) (randN : Nat) (req : Request)
    (h : c1.originalHttpClient = c2.originalHttpClient) :
    Client.Do c1 randN req = Client.Do c2 randN req := by
  unfold Client.Do
  rw [h]

/-- Witness for C9: client404 and client404Loaded differ in all four exported
fields yet dispatch reqW identically. -/
theorem do_independent_of_exported_fields_witness :
    Client.Do client404Loaded 0 reqW = Client.Do client404 0 reqW :=
  do_independent_of_exported_fields client404Loaded client404 0 reqW rfl


/-! ### C7 (spec-modelled Address Cache) -/

/-- Modelled from the spec: a CacheEntry of the Address Cache (spec sections
3 and 4.1) holds the resolved address and a staleness marker, false at
creation.  No cache exists anywhere under src/, so the component is modelled
from the words of the spec. -/
structure CacheEntry where
  resolvedAddress : String
  stale : Bool
  deriving Repr, DecidableEq

/-- Modelled from the spec: store(key, resolvedAddress) creates a new entry
with stale = false, replacing any existing entry for that key (spec section
4.1).  The one-shot staleness timer is real time and is outside the model. -/
def cacheStore (cache : List (String × CacheEntry)) (key addr : String) :
    List (String × CacheEntry) :=
  (key, { resolvedAddress := addr, stale := false })
    :: cache.filter (fun p => !(p.1 == key))

/-- Modelled from the spec: lookup(key) is a plain read of the entry for the
key (spec section 4.1). -/
def cacheLookup : List (String × CacheEntry) → String → Option CacheEntry
  | [], _ => none
  | (k, e) :: rest, key => if k == key then some e else cacheLookup rest key

/-- After removing every entry for a key, no entry for that key survives a
filter for it. -/
theorem filter_key_of_removed (cache : List (String × CacheEntry)) (key : String) :
    (cache.filter (fun p => !(p.1 == key))).filter (fun p => p.1 == key) = [] := by
  induction cache with
  | nil => rfl
  | cons hd tl ih =>
    by_cases hk : hd.1 == key
    · simp only [List.filter_cons, hk, Bool.not_true, List.filter]
      exact ih
    · simp only [List.filter_cons, hk, Bool.not_false, if_true, List.filter, ih]
      simp [hk]

/-- C7: after a successful store(key, addr) an immediate lookup(key) returns
addr with stale = false, and the new entry replaces any existing entry for
that key: filtering the stored cache for the key yields exactly the one new
entry. -/
theorem cache_store_lookup_fresh (cache : List (String × CacheEntry)) (key addr : String) :
    cacheLookup (cacheStore cache key addr) key
      = some { resolvedAddress := addr, stale := false }
    ∧ (cacheStore cache key addr).filter (fun p => p.1 == key)
      = [(key, { resolvedAddress := addr, stale := false })] := by
  constructor
  · simp [cacheStore, cacheLookup]
  · simp only [cacheStore, List.filter_cons, beq_self_eq_true, if_true]
    rw [filter_key_of_removed]

/-! ### C1 -/

/-- C1: when the registry reports not-found for a logical host, at the
service lookup and at the fallback instance lookup alike, the resolve
operation returns the original hostPort unchanged with no error
(src/client.go lines 308-314 and 376-378), and Do sends the request to that
original address with the URL, method and body unchanged.  The code signals
not-found by returning the input itself, which is what found = false denotes
in the spec; the client of src/ holds no cache at all, so no cache is
populated by the pass-through (or by anything else). -/
theorem resolve_notfound_passthrough_do_unchanged (c : Client) (randN : Nat) (req : Request)
    (host port : String) (svcResp instResp : Response)
    (hsplit : SplitHostPort req.host = Res.ok (host, port))
    (hsvc : c.originalHttpClient (svcLookupRequest host) = Res.ok svcResp)
    (h404s : svcResp.StatusCode = 404)
    (hinst : c.originalHttpClient (instLookupRequest host) = Res.ok instResp)
    (h404i : instResp.StatusCode = 404)
    (hhost : req.url.host = req.host) :
    (resolveServiceInArchimedes c.originalHttpClient randN req.host).1 = ROut.ok req.host
    ∧ (Client.Do c randN req).1 =
        (match c.originalHttpClient (NewRequest req.method req.url req.body) with
         | Res.err e => DoRes.ret (NewRequest req.method req.url req.body) none (some e)
         | Res.ok resp => DoRes.ret (NewRequest req.method req.url req.body) (some resp) none) := by
  have hres := resolve_notfound c.originalHttpClient randN req.host host port svcResp instResp
    hsplit hsvc h404s hinst h404i
  have hdo := do_of_resolve c randN req req.host _ hres
  have hurl : rewriteURL req.url req.host = req.url := by
    rw [← hhost]
    exact rewriteURL_self req.url
  constructor
  · rw [hres]
  · rw [hdo, hurl]
    cases c.originalHttpClient (NewRequest req.method req.url req.body) <;> rfl

/-- Witness for C1: under cl404 the registry reports not-found at both
levels, reqW passes through and is sent to svc-1:9000 unchanged. -/
theorem resolve_notfound_passthrough_do_unchanged_witness :
    (resolveServiceInArchimedes client404.originalHttpClient 0 reqW.host).1
      = ROut.ok reqW.host
    ∧ (Client.Do client404 0 reqW).1 =
        (match client404.originalHttpClient (NewRequest reqW.method reqW.url reqW.body) with
         | Res.err e => DoRes.ret (NewRequest reqW.method reqW.url reqW.body) none (some e)
         | Res.ok resp =>
            DoRes.ret (NewRequest reqW.method reqW.url reqW.body) (some resp) none) :=
  resolve_notfound_passthrough_do_unchanged client404 0 reqW "svc-1" "9000"
    { StatusCode := 404, Body := BodyData.raw "" }
    { StatusCode := 404, Body := BodyData.raw "" }
    (by decide) rfl rfl rfl rfl rfl

/-! ### C4 -/

/-- C4: every resolution failure reaching Do, a returned resolution error (a
malformed destination splits inside resolve and panics there; a non-success
registry status other than not-found is returned as an error) or a panic
inside resolution (registry call failure, decode failure), makes Do panic at
src/client.go line 257: Do never returns a resolution failure as an error
result to its caller. -/
theorem do_panics_on_resolution_failure (c : Client) (randN : Nat) (req : Request) (e : String)
    (h : (resolveServiceInArchimedes c.originalHttpClient randN req.host).1 = ROut.error e
       ∨ (resolveServiceInArchimedes c.originalHttpClient randN req.host).1 = ROut.fatal e) :
    (Client.Do c randN req).1 = DoRes.fatal e := by
  rcases hp : resolveServiceInArchimedes c.originalHttpClient randN req.host with ⟨res, tr⟩
  rw [hp] at h
  unfold Client.Do
  rw [hp]
  rcases h with h | h
  · dsimp only at h
    subst h
    rfl
  · dsimp only at h
    subst h
    rfl

/-- Witness for C4: a registry answering 500 makes resolution return an
error, and Do turns it into a panic instead of an error result. -/
theorem do_panics_on_resolution_failure_witness :
    (Client.Do client500 0 reqW).1
      = DoRes.fatal "got status 500 while resolving svc-1:9000 in archimedes" :=
  do_panics_on_resolution_failure client500 0 reqW
    "got status 500 while resolving svc-1:9000 in archimedes" (Or.inl (by decide))


/-! ### C5 -/

/-- C5: whatever request Do actually sends, after the destination rewrite,
agrees with the incoming request on method and body and on every URL field
other than the host: scheme, path, raw path, query, force-query flag,
fragment, user info and the non-transparent field (src/client.go lines
260-276). -/
theorem do_preserves_all_but_host (c : Client) (randN : Nat) (req : Request)
    (s : Request) (r : Option Response) (e : Option String)
    (h : (Client.Do c randN req).1 = DoRes.ret s r e) :
    s.method = req.method ∧ s.body = req.body
    ∧ s.url.scheme = req.url.scheme ∧ s.url.path = req.url.path
    ∧ s.url.rawPath = req.url.rawPath ∧ s.url.rawQuery = req.url.rawQuery
    ∧ s.url.forceQuery = req.url.forceQuery ∧ s.url.fragment = req.url.fragment
    ∧ s.url.user = req.url.user ∧ s.url.opq = req.url.opq := by
  obtain ⟨⟨addr, _, hs⟩, _, _, _⟩ := do_ret_inv c randN req s r e h
  subst hs
  exact ⟨rfl, rfl, rfl, rfl, rfl, rfl, rfl, rfl, rfl, rfl⟩

/-- Witness for C5: under clientResolves, reqW is sent as sentW, which keeps
every field of urlW except the host. -/
theorem do_preserves_all_but_host_witness :
    sentW.method = reqW.method ∧ sentW.body = reqW.body
    ∧ sentW.url.scheme = reqW.url.scheme ∧ sentW.url.path = reqW.url.path
    ∧ sentW.url.rawPath = reqW.url.rawPath ∧ sentW.url.rawQuery = reqW.url.rawQuery
    ∧ sentW.url.forceQuery = reqW.url.forceQuery ∧ sentW.url.fragment = reqW.url.fragment
    ∧ sentW.url.user = reqW.url.user ∧ sentW.url.opq = reqW.url.opq :=
  do_preserves_all_but_host clientResolves 0 reqW sentW
    (some { StatusCode := 200, Body := BodyData.raw "hi" }) none (by decide)

/-! ### C10 -/

/-- Client.Post is Do on the request whose header holds exactly the
Content-Type entry (src/client.go lines 496-503). -/
theorem post_eq_do (c : Client) (randN : Nat) (u : URL) (ct : String) (b : BodyData) :
    Client.Post c randN u ct b
      = Client.Do c randN { NewRequest "POST" u b with header := [("Content-Type", ct)] } :=
  rfl

/-- C10: Do rebuilds the outgoing request through NewRequest from only the
method, the rewritten URL and the body (src/client.go line 273), so the sent
request carries an empty header list: every header set on the original
request before Do, including the Content-Type header Post sets at
src/client.go line 501, is absent from the request actually sent. -/
theorem do_drops_all_headers (c : Client) (randN : Nat) (req : Request) (u : URL)
    (ct : String) (b : BodyData)
    (s : Request) (r : Option Response) (e : Option String)
    (s2 : Request) (r2 : Option Response) (e2 : Option String)
    (h : (Client.Do c randN req).1 = DoRes.ret s r e)
    (h2 : (Client.Post c randN u ct b).1 = DoRes.ret s2 r2 e2) :
    s.header = [] ∧ s2.header = [] ∧ ("Content-Type", ct) ∉ s2.header := by
  obtain ⟨⟨addr, _, hs⟩, _, _, _⟩ := do_ret_inv c randN req s r e h
  rw [post_eq_do] at h2
  obtain ⟨⟨addr2, _, hs2⟩, _, _, _⟩ :=
    do_ret_inv c randN { NewRequest "POST" u b with header := [("Content-Type", ct)] }
      s2 r2 e2 h2
  subst hs
  subst hs2
  exact ⟨rfl, rfl, by simp [NewRequest]⟩

/-- Witness for C10: a request with a preset header and a Post with a
Content-Type both go out with an empty header list under clientResolves. -/
theorem do_drops_all_headers_witness :
    sentW.header = []
    ∧ (NewRequest "POST" (rewriteURL urlW "10.0.0.5:9000") (BodyData.raw "x")).header = []
    ∧ ("Content-Type", "application/json")
        ∉ (NewRequest "POST" (rewriteURL urlW "10.0.0.5:9000") (BodyData.raw "x")).header :=
  do_drops_all_headers clientResolves 0 reqW urlW "application/json" (BodyData.raw "x")
    sentW (some { StatusCode := 200, Body := BodyData.raw "hi" }) none
    (NewRequest "POST" (rewriteURL urlW "10.0.0.5:9000") (BodyData.raw "x"))
    (some { StatusCode := 200, Body := BodyData.raw "hi" }) none
    (by decide) (by decide)


/-! ### C2 -/

/-- C2 (amended): Do never retries a failed send.  It performs exactly one
send per call; the (response, error) pair of that single send is returned to
the caller unchanged (src/client.go lines 278-280).  The client of src/
holds no address cache, so no destination ever comes from a cache and the
cached-retry branch the spec describes does not exist. -/
theorem do_single_send_and_error_passthrough (c : Client) (randN : Nat) (req : Request)
    (s : Request) (r : Option Response) (e : Option String)
    (h : (Client.Do c randN req).1 = DoRes.ret s r e) :
    (Client.Do c randN req).2.filter Event.isSend = [Event.send s]
    ∧ r = (match c.originalHttpClient s with
           | Res.ok resp => some resp
           | Res.err _ => none)
    ∧ e = (match c.originalHttpClient s with
           | Res.ok _ => none
           | Res.err m => some m) := by
  obtain ⟨⟨addr, ha, hs⟩, htr, hr, he⟩ := do_ret_inv c randN req s r e h
  refine ⟨?_, hr, he⟩
  rw [htr, List.filter_append]
  rw [filter_send_of_no_send _ (resolveService_trace_no_send _ _ _)]
  simp [List.filter_cons, Event.isSend]

/-- Witness for C2 (amended): under clientSendTimeout the single send of reqW
fails with a timeout and Do returns exactly that error after exactly that one
send. -/
theorem do_single_send_and_error_passthrough_witness :
    (Client.Do clientSendTimeout 0 reqW).2.filter Event.isSend = [Event.send sentW]
    ∧ (none : Option Response)
        = (match clientSendTimeout.originalHttpClient sentW with
           | Res.ok resp => some resp
           | Res.err _ => none)
    ∧ (some "dial tcp 10.0.0.5:9000: i/o timeout" : Option String)
        = (match clientSendTimeout.originalHttpClient sentW with
           | Res.ok _ => none
           | Res.err m => some m) :=
  do_single_send_and_error_passthrough clientSendTimeout 0 reqW sentW none
    (some "dial tcp 10.0.0.5:9000: i/o timeout") (by decide)

/-- Counterexample for C2 as stated: the send of reqW fails with a
network-level timeout, the very condition under which the claim mandates an
invalidation, a fresh resolution and exactly one resend with the second
outcome as final; instead Do performs exactly one resolution and exactly one
send and returns the first (and only) send error as final.  No resend exists
on any path, and the dispatcher holds no cache that a destination could have
come from. -/
theorem do_never_resends_counterexample :
    (Client.Do clientSendTimeout 0 reqW).1
      = DoRes.ret sentW none (some "dial tcp 10.0.0.5:9000: i/o timeout")
    ∧ ((Client.Do clientSendTimeout 0 reqW).2.filter Event.isSend).length = 1
    ∧ ((Client.Do clientSendTimeout 0 reqW).2.filter (fun ev => !(ev.isSend))).length = 1 := by
  decide

/-! ### C3 -/

/-- C3 (amended): resolution issues its registry service call exactly once:
when the registry answers with a non-success status other than not-found,
for example 408 when the registry keeps timing out, resolve returns the
status error immediately after that single attempt, with no second call, no
backoff and no sleeping (src/client.go lines 303-318 hold no loop). -/
theorem resolve_single_attempt_on_status (cl : Request → Res Response) (randN : Nat)
    (hostPort host port : String) (resp : Response)
    (hsplit : SplitHostPort hostPort = Res.ok (host, port))
    (hresp : cl (svcLookupRequest host) = Res.ok resp)
    (hnot404 : resp.StatusCode ≠ 404) (hnot200 : resp.StatusCode ≠ 200) :
    resolveServiceInArchimedes cl randN hostPort
      = (ROut.error ("got status " ++ toString resp.StatusCode ++ " while resolving "
            ++ hostPort ++ " in archimedes"),
         [Event.registryCall (svcLookupRequest host)]) := by
  unfold resolveServiceInArchimedes
  rw [hsplit]
  dsimp only
  rw [hresp]
  have h1 : (resp.StatusCode == StatusNotFound) = false := by
    simp [StatusNotFound, hnot404]
  have h2 : (resp.StatusCode != StatusOK) = true := by
    simp [StatusOK, hnot200]
  simp only [h1, h2, if_false, if_true, Bool.false_eq_true, reduceIte]

/-- Witness for C3 (amended): a registry that keeps answering 408 yields the
status error after exactly one registry call. -/
theorem resolve_single_attempt_on_status_witness :
    resolveServiceInArchimedes cl408 0 "svc-1:9000"
      = (ROut.error ("got status " ++ toString (408 : Nat) ++ " while resolving "
            ++ "svc-1:9000" ++ " in archimedes"),
         [Event.registryCall (svcLookupRequest "svc-1")]) :=
  resolve_single_attempt_on_status cl408 0 "svc-1:9000" "svc-1" "9000"
    { StatusCode := 408, Body := BodyData.raw "" } (by decide) rfl (by decide) (by decide)

/-- Counterexample for C3 as stated: with a registry that keeps timing out,
resolve does not make up to 5 attempts and does not return the last outcome:
a network-level registry timeout panics after exactly one call (first
conjunct), and a registry-reported timeout status 408 is returned as an error
after exactly one call (second conjunct); in both runs the trace holds one
registry call, not five, and no sleeping between attempts exists in the
code. -/
theorem resolve_no_retry_counterexample :
    resolveServiceInArchimedes clNetTimeout 0 "svc-1:9000"
      = (ROut.fatal "i/o timeout", [Event.registryCall (svcLookupRequest "svc-1")])
    ∧ resolveServiceInArchimedes cl408 0 "svc-1:9000"
      = (ROut.error "got status 408 while resolving svc-1:9000 in archimedes",
         [Event.registryCall (svcLookupRequest "svc-1")]) := by
  decide

/-! ### C6 -/

/-- Modelled from the spec: the deployment-id derivation of section 4.2, the
substring of the logical host before the first hyphen separator. -/
def deploymentIdSpec (host : String) : String :=
  String.mk (host.toList.takeWhile (fun c => !(c == '-')))

/-- C6 (amended): the identifier the resolution passes to the registry is the
entire logical host, everything before the port separator of hostPort: the
first registry call of every resolution is the service lookup at
GetServicePath of the full host (src/client.go lines 286-296).  No
hyphen-based prefix is ever taken, so the claim coincides with the code only
for hosts containing no hyphen. -/
theorem resolve_queries_full_host (cl : Request → Res Response) (randN : Nat)
    (hostPort host port : String)
    (hsplit : SplitHostPort hostPort = Res.ok (host, port)) :
    ((resolveServiceInArchimedes cl randN hostPort).2).head?
      = some (Event.registryCall (svcLookupRequest host))
    ∧ (svcLookupRequest host).url.path = GetServicePath host := by
  refine ⟨?_, rfl⟩
  unfold resolveServiceInArchimedes
  rw [hsplit]
  dsimp only
  repeat' split
  all_goals rfl

/-- Witness for C6 (amended): resolving orders-service-7:9000 issues its
service lookup for the full host orders-service-7. -/
theorem resolve_queries_full_host_witness :
    ((resolveServiceInArchimedes cl404 0 "orders-service-7:9000").2).head?
      = some (Event.registryCall (svcLookupRequest "orders-service-7"))
    ∧ (svcLookupRequest "orders-service-7").url.path
      = GetServicePath "orders-service-7" :=
  resolve_queries_full_host cl404 0 "orders-service-7:9000" "orders-service-7" "9000"
    (by decide)

/-- A service instance for the deployment named orders, living at
10.0.0.9. -/
def ordersInstance : Instance :=
  { Ip := "10.0.0.9", Local := true, PortTranslation := [] }

/-- A registry answer for the deployment named orders. -/
def ordersService : CompletedServiceDTO :=
  { Ports := [{ num := "9000", proto := "tcp" }], InstancesIds := ["orders-0"],
    InstancesMap := [("orders-0", ordersInstance)] }

/-- An oracle under which the registry knows exactly the service named
orders and reports not-found for everything else. -/
def clOrders : Request → Res Response := fun req =>
  if req == svcLookupRequest "orders" then
    Res.ok { StatusCode := 200, Body := BodyData.serviceJson (Res.ok ordersService) }
  else
    Res.ok { StatusCode := 404, Body := BodyData.raw "" }

/-- Counterexample for C6 as stated: the spec derivation maps the logical
host orders-service-7 to the deployment id orders (first conjunct), and a
registry that knows the deployment orders resolves orders:9000 to
10.0.0.9:9000 (second conjunct); yet resolving orders-service-7:9000 under
that same registry passes through unresolved (third conjunct), because the
service lookup is keyed by the full host orders-service-7 (fourth conjunct),
which differs from the lookup the claimed derivation would issue (fifth
conjunct). -/
theorem resolve_no_deployment_id_derivation_counterexample :
    deploymentIdSpec "orders-service-7" = "orders"
    ∧ (resolveServiceInArchimedes clOrders 0 "orders:9000").1 = ROut.ok "10.0.0.9:9000"
    ∧ (resolveServiceInArchimedes clOrders 0 "orders-service-7:9000").1
        = ROut.ok "orders-service-7:9000"
    ∧ ((resolveServiceInArchimedes clOrders 0 "orders-service-7:9000").2).head?
        = some (Event.registryCall (svcLookupRequest "orders-service-7"))
    ∧ svcLookupRequest "orders-service-7"
        ≠ svcLookupRequest (deploymentIdSpec "orders-service-7") := by
  decide

end Arch
